import Mathlib

set_option maxRecDepth 100000

/-!
Shallow embedding of `src/blockchain.py` (class `Blockchain`) and proofs of
the specification claims about it.

Conventions of the embedding:
* Python `int` is `Int` (proof values, amounts); list indices and lengths are `Nat`.
* Python `time()` returns a float timestamp; the claims never depend on its
  value, so timestamps are modelled as an arbitrary `Nat` passed to the
  operations that read the clock.
* A Python value that may be `None`, an `int` or a `str` (the `previous_hash`
  argument and field) is the inductive `PyVal`; Python truthiness of such a
  value is `truthy`.
* Fallible Python code (uncaught `IndexError` / `NameError` /
  `requests.exceptions.ConnectionError`) is modelled with `Option` / `Except PyErr`.
* `hashlib.sha256(...).hexdigest()` is implemented concretely (`sha256HexChars`),
  and `json.dumps(block, sort_keys=True)` is modelled by `blockJson` for the
  block dictionaries this program builds (keys serialized in sorted order with
  the default `", "` / `": "` separators; strings here are plain ASCII without
  escapes, and the integer timestamp model prints in decimal).
-/

/-- Python runtime errors that the embedded code can raise. -/
inductive PyErr where
  | indexError
  | nameError
  | connectionError
deriving DecidableEq

/-- A Python value that is either `None`, an `int`, or a `str` — the type of
the `previous_hash` argument/field of `Blockchain.new_block`. -/
inductive PyVal where
  | none
  | int (n : Int)
  | str (s : String)
deriving DecidableEq, BEq

/-- Python truthiness for `PyVal`: `None`, `0` and `""` are falsy. -/
def truthy : PyVal → Bool
  | .none => false
  | .int n => n != 0
  | .str s => s != ""

/-- A transaction dictionary as built by `Blockchain.new_transaction`. -/
structure Transaction where
  sender : String
  recipient : String
  amount : Int
deriving DecidableEq

/-- A block dictionary as built by `Blockchain.new_block`. -/
structure Block where
  index : Nat
  timestamp : Nat
  transactions : List Transaction
  proof : Int
  previous_hash : PyVal
deriving DecidableEq

/-- The mutable state of a `Blockchain` instance: `self.chain` and
`self.current_transactions`.  (`self.nodes` only names the peers queried by
`resolve_conflicts`; the network responses are passed explicitly to the
embedded `resolve_conflicts`, so the registry is not part of the state.) -/
structure LState where
  chain : List Block
  current_transactions : List Transaction
deriving DecidableEq

/-! ### SHA-256 (model of `hashlib.sha256(...).hexdigest()`) -/

/-- `2 ^ 32`, the modulus for 32-bit words. -/
def MOD32 : Nat := 4294967296

/-- Right rotation of a 32-bit word by `n` (for `1 ≤ n ≤ 31`). -/
def rotr32 (n x : Nat) : Nat := ((x >>> n) ||| (x <<< (32 - n))) % MOD32

/-- The 64 SHA-256 round constants (FIPS 180-4, written in decimal). -/
def shaK : List Nat :=
  [1116352408, 1899447441, 3049323471, 3921009573, 961987163, 1508970993,
   2453635748, 2870763221, 3624381080, 310598401, 607225278, 1426881987,
   1925078388, 2162078206, 2614888103, 3248222580, 3835390401, 4022224774,
   264347078, 604807628, 770255983, 1249150122, 1555081692, 1996064986,
   2554220882, 2821834349, 2952996808, 3210313671, 3336571891, 3584528711,
   113926993, 338241895, 666307205, 773529912, 1294757372, 1396182291,
   1695183700, 1986661051, 2177026350, 2456956037, 2730485921, 2820302411,
   3259730800, 3345764771, 3516065817, 3600352804, 4094571909, 275423344,
   430227734, 506948616, 659060556, 883997877, 958139571, 1322822218,
   1537002063, 1747873779, 1955562222, 2024104815, 2227730452, 2361852424,
   2428436474, 2756734187, 3204031479, 3329325298]

/-- The initial SHA-256 hash state (FIPS 180-4, written in decimal). -/
def shaH0 : List Nat :=
  [1779033703, 3144134277, 1013904242, 2773480762,
   1359893119, 2600822924, 528734635, 1541459225]

/-- Group bytes into big-endian 32-bit words. -/
def bytesToWords : List Nat → List Nat
  | b0 :: b1 :: b2 :: b3 :: rest =>
      (((b0 * 256 + b1) * 256 + b2) * 256 + b3) :: bytesToWords rest
  | _ => []

/-- Extend a 16-word message block to the 64-word schedule (`fuel = 48`). -/
def extendW : List Nat → Nat → List Nat
  | w, 0 => w
  | w, fuel + 1 =>
    let i := w.length
    let w15 := w.getD (i - 15) 0
    let w2 := w.getD (i - 2) 0
    let s0 := (rotr32 7 w15) ^^^ (rotr32 18 w15) ^^^ (w15 >>> 3)
    let s1 := (rotr32 17 w2) ^^^ (rotr32 19 w2) ^^^ (w2 >>> 10)
    extendW (w ++ [(w.getD (i - 16) 0 + s0 + w.getD (i - 7) 0 + s1) % MOD32]) fuel

/-- One SHA-256 compression round; the state is the list `[a,b,c,d,e,f,g,h]`
and `kw` pairs the round constant with the schedule word. -/
def shaRound (st : List Nat) (kw : Nat × Nat) : List Nat :=
  match st with
  | [a, b, c, d, e, f, g, h] =>
    let S1 := (rotr32 6 e) ^^^ (rotr32 11 e) ^^^ (rotr32 25 e)
    let ch := (e &&& f) ^^^ ((e ^^^ 4294967295) &&& g)
    let temp1 := (h + S1 + ch + kw.1 + kw.2) % MOD32
    let S0 := (rotr32 2 a) ^^^ (rotr32 13 a) ^^^ (rotr32 22 a)
    let maj := (a &&& b) ^^^ (a &&& c) ^^^ (b &&& c)
    let temp2 := (S0 + maj) % MOD32
    [(temp1 + temp2) % MOD32, a, b, c, (d + temp1) % MOD32, e, f, g]
  | other => other

/-- Compress one 16-word message block into the hash state. -/
def shaCompress (h : List Nat) (blockWords : List Nat) : List Nat :=
  let w := extendW blockWords 48
  let st := (shaK.zip w).foldl shaRound h
  (h.zip st).map (fun p => (p.1 + p.2) % MOD32)

/-- SHA-256 padding: a `0x80` byte, zeros to 56 mod 64, then the bit length
as 8 big-endian bytes. -/
def padMsg (msg : List Nat) : List Nat :=
  let bitLen := 8 * msg.length
  let zeros := (119 - msg.length % 64) % 64
  msg ++ [128] ++ List.replicate zeros 0 ++
    (List.range 8).map (fun i => (bitLen >>> (56 - 8 * i)) % 256)

/-- Fold the compression function over the 64-byte blocks of the padded
message; `fuel` is the number of blocks. -/
def processBlocks : Nat → List Nat → List Nat → List Nat
  | 0, h, _ => h
  | fuel + 1, h, bytes =>
      processBlocks fuel (shaCompress h (bytesToWords (bytes.take 64))) (bytes.drop 64)

/-- SHA-256 of a byte sequence, as eight 32-bit words. -/
def sha256Words (msg : List Nat) : List Nat :=
  let padded := padMsg msg
  processBlocks (padded.length / 64) shaH0 padded

/-- Lowercase hex digit for a value below 16. -/
def hexDigit (n : Nat) : Char :=
  if n < 10 then Char.ofNat (48 + n) else Char.ofNat (87 + n)

/-- The eight hex characters of a 32-bit word, most significant first. -/
def wordHex (w : Nat) : List Char :=
  (List.range 8).map (fun i => hexDigit ((w >>> (28 - 4 * i)) % 16))

/-- `hashlib.sha256(msg).hexdigest()` as a list of characters. -/
def sha256HexChars (msg : List Nat) : List Char :=
  ((sha256Words msg).map wordHex).flatten

/-- `hashlib.sha256(msg).hexdigest()` as a string. -/
def sha256Hex (msg : List Nat) : String := String.mk (sha256HexChars msg)

/-- The UTF-8 bytes of a string; the strings hashed by this program are plain
ASCII (decimal digits, JSON punctuation), where UTF-8 is the identity on
code points. -/
def strBytes (s : String) : List Nat := s.toList.map Char.toNat

/-! ### JSON serialization (model of `json.dumps(block, sort_keys=True)`) -/

/-- A JSON string literal; the strings this program serializes are plain
ASCII without characters needing escapes. -/
def jsonStr (s : String) : String := "\"" ++ s ++ "\""

/-- JSON form of a `PyVal` (`None` serializes as `null`). -/
def pyValJson : PyVal → String
  | .none => "null"
  | .int n => toString n
  | .str s => jsonStr s

/-- `json.dumps` of a transaction dictionary with `sort_keys=True`
(keys in order `amount`, `recipient`, `sender`). -/
def txJson (t : Transaction) : String :=
  "\x7b\"amount\": " ++ toString t.amount ++
  ", \"recipient\": " ++ jsonStr t.recipient ++
  ", \"sender\": " ++ jsonStr t.sender ++ "\x7d"

/-- `json.dumps` of a block dictionary with `sort_keys=True` (keys in order
`index`, `previous_hash`, `proof`, `timestamp`, `transactions`). -/
def blockJson (b : Block) : String :=
  "\x7b\"index\": " ++ toString b.index ++
  ", \"previous_hash\": " ++ pyValJson b.previous_hash ++
  ", \"proof\": " ++ toString b.proof ++
  ", \"timestamp\": " ++ toString b.timestamp ++
  ", \"transactions\": [" ++ String.intercalate ", " (b.transactions.map txJson) ++
  "]\x7d"

/-! ### The `Blockchain` methods -/

namespace Blockchain

/-- `Blockchain.hash` (staticmethod): SHA-256 hex digest of the canonical
(sorted-keys) JSON serialization of a block. -/
def hash (block : Block) : String :=
  sha256Hex (strBytes (blockJson block))

/-- `Blockchain.valid_proof` (staticmethod): does the SHA-256 hex digest of
`f"\x7blast_proof\x7d\x7bproof\x7d"` (the two decimal string forms
concatenated) start with four `'0'` characters? -/
def valid_proof (last_proof proof : Int) : Bool :=
  let guess := strBytes (toString last_proof ++ toString proof)
  let guess_hash := sha256HexChars guess
  guess_hash.take 4 == ['0', '0', '0', '0']

/-- `Blockchain.proof_of_work`: the source runs `proof = 0` and increments
`proof` while `valid_proof(last_proof, proof)` is `False`, so it computes the
least natural number satisfying `valid_proof` and terminates exactly when
some valid proof exists; under that hypothesis the loop is `Nat.find`. -/
def proof_of_work (last_proof : Int)
    (h : ∃ p : Nat, valid_proof last_proof p = true) : Nat :=
  Nat.find h

/-- `Blockchain.new_block`: builds the block dictionary, clears
`current_transactions`, appends the block to `chain` and returns it.
`previous_hash or self.hash(self.chain[-1])` takes the supplied value when it
is truthy and otherwise the digest of the last block; `self.chain[-1]` on an
empty chain raises `IndexError`, modelled by the `none` result.  `time()` is
passed in as `ts`. -/
def new_block (s : LState) (proof : Int) (previous_hash : PyVal) (ts : Nat) :
    Option (LState × Block) :=
  (if truthy previous_hash then some previous_hash
   else (s.chain.getLast?).map (fun b => PyVal.str (hash b))).map
    (fun ph =>
      let block : Block :=
        { index := s.chain.length + 1
          timestamp := ts
          transactions := s.current_transactions
          proof := proof
          previous_hash := ph }
      ({ chain := s.chain ++ [block], current_transactions := [] }, block))

/-- `Blockchain.new_transaction`: appends the transaction dictionary to
`current_transactions` and returns `self.last_block['index'] + 1`.  The
returned index is `none` when the chain is empty (in Python the appended
transaction persists and the read of `self.last_block` raises `IndexError`;
that state is unreachable from `__init__`). -/
def new_transaction (s : LState) (sender recipient : String) (amount : Int) :
    LState × Option Nat :=
  ({ s with current_transactions :=
      s.current_transactions ++ [⟨sender, recipient, amount⟩] },
   s.chain.getLast?.map (fun b => b.index + 1))

/-- `Blockchain.__init__`: `chain = []`, `current_transactions = []`, then
`new_block(previous_hash=1, proof=100)`; the supplied `previous_hash` `1` is
truthy, so the `none` branch is unreachable and repeats the empty start
state. -/
def initState (ts : Nat) : LState :=
  let s0 : LState := { chain := [], current_transactions := [] }
  match new_block s0 100 (.int 1) ts with
  | some (s1, _) => s1
  | none => s0

/-- `Blockchain.valid_chain`, modelled statement by statement:
`last_block = chain[0]` raises `IndexError` on an empty list; the loop
condition `current_index := 1 < len(chain)` binds the *boolean*
`1 < len(chain)` to `current_index`, so for a chain of length at least 2 the
body runs with `current_index = True`, and its first comparison evaluates
`self_hash(last_block)` — an undefined name — raising `NameError` before
anything else happens.  For a chain of length 1 the loop is skipped and the
function returns `True`. -/
def valid_chain (chain : List Block) : Except PyErr Bool :=
  if chain.length = 0 then .error .indexError
  else if 1 < chain.length then .error .nameError
  else .ok true

end Blockchain

/-- The result of `requests.get(f"http://\x7bnode\x7d/chain")` for one peer:
either the request raises (`failure`, e.g. an unreachable host) or it returns
a status code with the parsed `length` and `chain` fields of the JSON body. -/
inductive FetchResult where
  | failure
  | response (status : Nat) (length : Int) (chain : List Block)

namespace Blockchain

/-- The peer loop of `Blockchain.resolve_conflicts`: walk the responses in
order, skipping non-200 statuses; a raised `requests` exception or a
`valid_chain` error propagates (there is no `try`/`except` in the source).
Carries `max_length` and the current `new_chain` candidate. -/
def resolve_loop : List FetchResult → Int → Option (List Block) →
    Except PyErr (Option (List Block))
  | [], _, best => .ok best
  | .failure :: _, _, _ => .error .connectionError
  | .response st len chain :: rest, max_length, best =>
    if st = 200 then
      if max_length < len then
        match valid_chain chain with
        | .error e => .error e
        | .ok true => resolve_loop rest len (some chain)
        | .ok false => resolve_loop rest max_length best
      else resolve_loop rest max_length best
    else resolve_loop rest max_length best

/-- `Blockchain.resolve_conflicts`: `max_length` starts at `len(self.chain)`;
after the peer loop, `if new_chain:` adopts the candidate when it is truthy
(a non-empty list) and returns `True`, otherwise returns `False` with the
state untouched.  `responses` lists the network result for each node of
`self.nodes` in iteration order. -/
def resolve_conflicts (s : LState) (responses : List FetchResult) :
    Except PyErr (Bool × LState) :=
  match resolve_loop responses (s.chain.length : Int) none with
  | .error e => .error e
  | .ok none => .ok (false, s)
  | .ok (some c) =>
    if c.isEmpty then .ok (false, s) else .ok (true, { s with chain := c })

end Blockchain

/-! ### The intended behavior, modelled from the spec

The source's `valid_chain` is defective (undefined name `self_hash`, boolean
loop index); the spec (§4.4, §9) states the intended pairwise scan, and §4.5
requires skipping failed peers.  The following definitions capture that
intended behavior for comparison with the code. -/

/-- Modelled from the spec: the scan of §4.4 over adjacent pairs, carrying
the previous block; each later block must link by hash to the earlier one
and the pair of proofs must satisfy `valid_proof`. -/
def valid_pairs : Block → List Block → Bool
  | _, [] => true
  | prev, b :: rest =>
    (b.previous_hash == PyVal.str (Blockchain.hash prev)) &&
    Blockchain.valid_proof prev.proof b.proof && valid_pairs b rest

/-- Modelled from the spec: §4.4 `ChainValidator.isValid` — iterate from the
second block to the end checking every adjacent pair; vacuously true for a
single-block chain. -/
def valid_chain_spec : List Block → Bool
  | [] => true
  | b :: rest => valid_pairs b rest

/-- Modelled from the spec: the peer loop of §4.5 — skip unreachable peers
and non-success statuses, keep the best strictly-longer valid candidate. -/
def resolve_loop_spec : List FetchResult → Int → Option (List Block) →
    Option (List Block)
  | [], _, best => best
  | .failure :: rest, max_length, best => resolve_loop_spec rest max_length best
  | .response st len chain :: rest, max_length, best =>
    if st = 200 && decide (max_length < len) && valid_chain_spec chain then
      resolve_loop_spec rest len (some chain)
    else resolve_loop_spec rest max_length best

/-- Modelled from the spec: §4.5 `ConsensusResolver.resolve` — after the peer
loop, adopt the candidate and report `true`, else leave the chain untouched
and report `false`. -/
def resolve_spec (s : LState) (responses : List FetchResult) : Bool × LState :=
  match resolve_loop_spec responses (s.chain.length : Int) none with
  | none => (false, s)
  | some c => (true, { s with chain := c })

/-! ### Concrete blocks and chains used by witnesses and counterexamples -/

/-- The genesis block produced by `Blockchain.__init__` at clock value `ts`. -/
def genesisBlock (ts : Nat) : Block :=
  { index := 1, timestamp := ts, transactions := [], proof := 100,
    previous_hash := .int 1 }

/-- A second block correctly chained onto the genesis block: its
`previous_hash` is the digest of the genesis block and its proof `35293` is
the smallest proof valid against the genesis proof `100`. -/
def block2 : Block :=
  { index := 2, timestamp := 1, transactions := [], proof := 35293,
    previous_hash := .str (Blockchain.hash (genesisBlock 0)) }

/-- A two-block chain satisfying the intended §4.4 validity conditions. -/
def chain2 : List Block := [genesisBlock 0, block2]

/-- The state and block obtained by submitting one transaction to a fresh
ledger and sealing with proof `7`, supplied `previous_hash` `"h"`, clock `5`. -/
def txB : Transaction := ⟨"c", "d", 20⟩

/-- A ledger state whose pending pool already holds one transaction. -/
def poolState : LState :=
  { chain := [genesisBlock 0], current_transactions := [⟨"a", "b", 10⟩] }

/-- Submit a list of transactions in order (`new_transaction` on each). -/
def submitAll (s : LState) (txs : List Transaction) : LState :=
  txs.foldl
    (fun st t => (Blockchain.new_transaction st t.sender t.recipient t.amount).1) s

/-- The block sealed in the witness scenario for claim C7. -/
def sealedBlockW : Block := ⟨2, 5, [txB], 7, .str "h"⟩

/-- The ledger state after the witness scenario for claim C7. -/
def sealedStateW : LState := ⟨[genesisBlock 0, sealedBlockW], []⟩

/-- The states reachable from `Blockchain.__init__` by any sequence of
`new_transaction` and (successful) `new_block` calls. -/
inductive Reachable : LState → Prop where
  | init (ts : Nat) : Reachable (Blockchain.initState ts)
  | tx (s : LState) (sender recipient : String) (amount : Int) :
      Reachable s →
      Reachable (Blockchain.new_transaction s sender recipient amount).1
  | sealOp (s : LState) (proof : Int) (ph : PyVal) (ts : Nat) (s2 : LState)
      (b : Block) : Reachable s →
      Blockchain.new_block s proof ph ts = some (s2, b) → Reachable s2

/-! ### Helper lemmas -/

/-- A list's first four characters all agree with `['0','0','0','0']` exactly
when each of the first four positions reads `'0'` (out-of-range positions
default to `'1' ≠ '0'`). -/
theorem take4_eq_iff (l : List Char) :
    (l.take 4 == ['0', '0', '0', '0']) = true ↔
      (l.getD 0 '1' = '0' ∧ l.getD 1 '1' = '0' ∧
       l.getD 2 '1' = '0' ∧ l.getD 3 '1' = '0') := by
  rw [beq_iff_eq]
  match l with
  | [] => simp [List.getD]
  | [a] => simp [List.getD]
  | [a, b] => simp [List.getD]
  | [a, b, c] => simp [List.getD]
  | a :: b :: c :: d :: t => simp [List.getD, List.take]

/-- Submitting transactions never touches the chain and appends the
transactions, in order, to the pending pool. -/
theorem submitAll_spec (txs : List Transaction) (s : LState) :
    (submitAll s txs).chain = s.chain ∧
    (submitAll s txs).current_transactions = s.current_transactions ++ txs := by
  induction txs generalizing s with
  | nil => simp [submitAll]
  | cons t rest ih =>
    have h := ih (Blockchain.new_transaction s t.sender t.recipient t.amount).1
    simp only [submitAll, List.foldl_cons] at h ⊢
    refine ⟨h.1, ?_⟩
    rw [h.2]
    simp [Blockchain.new_transaction]

/-- A successful `new_block` appends one block (carrying the old pool as its
transactions, with index `len + 1`) and clears the pool. -/
theorem new_block_some (s : LState) (proof : Int) (ph : PyVal) (ts : Nat)
    (s2 : LState) (b : Block)
    (h : Blockchain.new_block s proof ph ts = some (s2, b)) :
    b = { index := s.chain.length + 1, timestamp := ts,
          transactions := s.current_transactions, proof := proof,
          previous_hash := b.previous_hash } ∧
    s2 = { chain := s.chain ++ [b], current_transactions := [] } := by
  obtain ⟨ph2, _, heq⟩ := Option.map_eq_some'.mp h
  obtain ⟨hs2, hb⟩ := Prod.mk.injEq .. ▸ heq
  subst hb hs2
  exact ⟨rfl, rfl⟩

/-- `valid_proof 100 35293` holds: the digest of `"10035293"` starts with
four zeros (and `35293` is in fact the least such proof). -/
theorem pow_ex_100 : ∃ p : Nat, Blockchain.valid_proof 100 p = true :=
  ⟨35293, by decide⟩

/-! ### The claims -/

/-- C1: `valid_chain` is claimed to return true iff every adjacent pair is
hash-linked and proof-valid, visiting each pair once and vacuously accepting
single-block chains.  The code instead raises `NameError` (undefined name
`self_hash`) on every chain of length ≥ 2 — here on a two-block chain that
the intended §4.4 scan accepts — and only the single-block case behaves as
claimed. -/
theorem C1_valid_chain_defect :
    Blockchain.valid_chain chain2 = .error .nameError ∧
    valid_chain_spec chain2 = true ∧
    Blockchain.valid_chain [genesisBlock 0] = .ok true :=
  ⟨rfl, rfl, rfl⟩

/-- C2: `resolve_conflicts` is claimed to adopt a reported chain that passes
`valid_chain` and is strictly longer.  On a fresh ledger (length 1) with one
peer reporting a correctly linked two-block chain, the code propagates the
`NameError` raised by the defective `valid_chain` instead of adopting; the
spec-modelled resolver adopts the chain and reports `true`. -/
theorem C2_resolve_crashes_on_longer_chain :
    Blockchain.resolve_conflicts (Blockchain.initState 0)
        [.response 200 2 chain2] = .error .nameError ∧
    resolve_spec (Blockchain.initState 0) [.response 200 2 chain2]
      = (true, { chain := chain2, current_transactions := [] }) :=
  ⟨rfl, rfl⟩

/-- C3: one failing peer is claimed never to block adoption of another
peer's valid longer chain.  The code does skip a non-success status, but then
crashes (`NameError`) validating the good peer's chain; an unreachable peer
makes `requests.get` raise with no surrounding `try`, aborting resolution at
once.  The spec-modelled resolver skips both bad peers and adopts. -/
theorem C3_peer_failure_not_tolerated :
    Blockchain.resolve_conflicts (Blockchain.initState 0)
        [.response 500 9 [], .response 200 2 chain2] = .error .nameError ∧
    Blockchain.resolve_conflicts (Blockchain.initState 0)
        [.failure, .response 200 2 chain2] = .error .connectionError ∧
    resolve_spec (Blockchain.initState 0)
        [.failure, .response 500 9 [], .response 200 2 chain2]
      = (true, { chain := chain2, current_transactions := [] }) :=
  ⟨rfl, rfl, rfl⟩

/-- C4: whenever some valid proof exists for `last_proof`, `proof_of_work`
returns a proof valid against `last_proof` that is least among all valid
proofs (so in particular `valid_proof last_proof (proof_of_work last_proof)`
holds). -/
theorem C4_proof_of_work_least (last_proof : Int) (q : Nat)
    (h : ∃ p : Nat, Blockchain.valid_proof last_proof p = true)
    (hq : Blockchain.valid_proof last_proof q = true) :
    Blockchain.valid_proof last_proof (Blockchain.proof_of_work last_proof h)
      = true ∧
    Blockchain.proof_of_work last_proof h ≤ q :=
  ⟨Nat.find_spec h, Nat.find_min' h hq⟩

/-- C4 witness: instantiated at `last_proof = 100` with valid proof `35293`. -/
theorem C4_witness :
    Blockchain.valid_proof 100 (Blockchain.proof_of_work 100 pow_ex_100)
      = true ∧
    Blockchain.proof_of_work 100 pow_ex_100 ≤ 35293 :=
  C4_proof_of_work_least 100 35293 pow_ex_100 (by decide)

/-- C5: `valid_proof last_proof proof` returns true iff the SHA-256 hex
digest of the concatenated decimal string forms of `last_proof` and `proof`
has `'0'` in each of its first four hex-character positions (difficulty 4). -/
theorem C5_valid_proof_leading_zeros (last_proof proof : Int) :
    Blockchain.valid_proof last_proof proof = true ↔
      ((sha256HexChars (strBytes (toString last_proof ++ toString proof))).getD
          0 '1' = '0' ∧
       (sha256HexChars (strBytes (toString last_proof ++ toString proof))).getD
          1 '1' = '0' ∧
       (sha256HexChars (strBytes (toString last_proof ++ toString proof))).getD
          2 '1' = '0' ∧
       (sha256HexChars (strBytes (toString last_proof ++ toString proof))).getD
          3 '1' = '0') :=
  take4_eq_iff _

/-- C5 witness: the equivalence instantiated at `100`, `35293`, both sides
holding. -/
theorem C5_witness :
    Blockchain.valid_proof 100 35293 = true ∧
    ((sha256HexChars (strBytes (toString (100 : Int) ++ toString (35293 : Int)))).getD
        0 '1' = '0' ∧
     (sha256HexChars (strBytes (toString (100 : Int) ++ toString (35293 : Int)))).getD
        1 '1' = '0' ∧
     (sha256HexChars (strBytes (toString (100 : Int) ++ toString (35293 : Int)))).getD
        2 '1' = '0' ∧
     (sha256HexChars (strBytes (toString (100 : Int) ++ toString (35293 : Int)))).getD
        3 '1' = '0') :=
  ⟨by decide, (C5_valid_proof_leading_zeros 100 35293).mp (by decide)⟩

/-- C6: a freshly constructed `Blockchain` has exactly the genesis block —
index 1, empty transaction list, proof 100 — and an empty pending pool. -/
theorem C6_genesis (ts : Nat) :
    (Blockchain.initState ts).chain = [genesisBlock ts] ∧
    (genesisBlock ts).index = 1 ∧
    (genesisBlock ts).transactions = [] ∧
    (genesisBlock ts).proof = 100 ∧
    (Blockchain.initState ts).current_transactions = [] :=
  ⟨rfl, rfl, rfl, rfl, rfl⟩

/-- C7 counterexample: from a state whose pool already holds a transaction,
submitting one transaction and sealing places *both* transactions in the new
block, so the block does not contain exactly the submitted ones. -/
theorem C7_counterexample :
    (Blockchain.new_block (submitAll poolState [txB]) 7 (PyVal.str "h") 5).map
        (fun r => (r.1.current_transactions, r.2.transactions))
      = some ([], [⟨"a", "b", 10⟩, txB]) ∧
    ([⟨"a", "b", 10⟩, txB] : List Transaction) ≠ [txB] := by
  decide

/-- C7 (amended): from a state with an *empty* pending pool, submitting a
sequence of transactions and then sealing leaves the pool empty and places
exactly the submitted transactions, in submission order, into the new
block's transaction list. -/
theorem C7_seal_drains_pool (s : LState) (txs : List Transaction)
    (proof : Int) (ph : PyVal) (ts : Nat) (s2 : LState) (b : Block)
    (hpool : s.current_transactions = [])
    (hseal : Blockchain.new_block (submitAll s txs) proof ph ts
      = some (s2, b)) :
    s2.current_transactions = [] ∧ b.transactions = txs := by
  obtain ⟨hb, hs2⟩ := new_block_some _ _ _ _ _ _ hseal
  constructor
  · rw [hs2]
  · rw [hb]
    show (submitAll s txs).current_transactions = txs
    rw [(submitAll_spec txs s).2, hpool]
    simp

/-- C7 witness: one transaction submitted to a fresh ledger, sealed with a
supplied previous hash. -/
theorem C7_witness :
    sealedStateW.current_transactions = [] ∧ sealedBlockW.transactions = [txB] :=
  C7_seal_drains_pool (Blockchain.initState 0) [txB] 7 (.str "h") 5
    sealedStateW sealedBlockW rfl rfl

/-- C8: in every state reachable from `__init__` by `new_transaction` and
`new_block` operations, the chain is non-empty and the indices of its blocks
are exactly `1, 2, …, len` — each block's `index` equals its 1-based
position. -/
theorem C8_chain_indices (s : LState) (hs : Reachable s) :
    s.chain ≠ [] ∧ s.chain.map Block.index = List.range' 1 s.chain.length := by
  induction hs with
  | init ts =>
    exact ⟨by simp [Blockchain.initState, Blockchain.new_block, truthy], rfl⟩
  | tx st sender recipient amount hr ih => exact ih
  | sealOp st pf ph ts s2 b hr hseal ih =>
    obtain ⟨hb, hs2⟩ := new_block_some _ _ _ _ _ _ hseal
    subst hs2
    refine ⟨by simp, ?_⟩
    rw [List.map_append]
    simp only [List.map_cons, List.map_nil]
    rw [ih.2]
    have hidx : b.index = st.chain.length + 1 := by rw [hb]
    rw [hidx]
    simp only [List.length_append, List.length_cons, List.length_nil]
    rw [show st.chain.length + (0 + 1) = st.chain.length + 1 from rfl,
      List.range'_1_concat 1 st.chain.length, Nat.add_comm 1 st.chain.length]

/-- C8 witness: the invariant at the freshly initialized state. -/
theorem C8_witness :
    (Blockchain.initState 0).chain ≠ [] ∧
    (Blockchain.initState 0).chain.map Block.index
      = List.range' 1 (Blockchain.initState 0).chain.length :=
  C8_chain_indices (Blockchain.initState 0) (Reachable.init 0)

/-- C9: a falsy supplied `previous_hash` (`0` or `""`) is treated as omitted —
the sealed block's `previous_hash` becomes the digest of the last block —
while a truthy supplied value is stored verbatim. -/
theorem C9_falsy_previous_hash (s : LState) (lb : Block) (proof : Int)
    (ts : Nat) (v : PyVal) (hlb : s.chain.getLast? = some lb)
    (hv : truthy v = true) :
    (Blockchain.new_block s proof (.int 0) ts).map (fun r => r.2.previous_hash)
        = some (.str (Blockchain.hash lb)) ∧
    (Blockchain.new_block s proof (.str "") ts).map (fun r => r.2.previous_hash)
        = some (.str (Blockchain.hash lb)) ∧
    (Blockchain.new_block s proof v ts).map (fun r => r.2.previous_hash)
        = some v := by
  refine ⟨?_, ?_, ?_⟩
  · simp [Blockchain.new_block, truthy, hlb]
  · simp [Blockchain.new_block, truthy, hlb]
  · simp [Blockchain.new_block, hv]

/-- C9 witness: sealing on a fresh ledger with supplied `previous_hash`
values `0`, `""` and `"x"`. -/
theorem C9_witness :
    ((Blockchain.new_block (Blockchain.initState 0) 7 (.int 0) 3).map
        (fun r => r.2.previous_hash)
      = some (.str (Blockchain.hash (genesisBlock 0)))) ∧
    ((Blockchain.new_block (Blockchain.initState 0) 7 (.str "") 3).map
        (fun r => r.2.previous_hash)
      = some (.str (Blockchain.hash (genesisBlock 0)))) ∧
    ((Blockchain.new_block (Blockchain.initState 0) 7 (.str "x") 3).map
        (fun r => r.2.previous_hash) = some (.str "x")) :=
  C9_falsy_previous_hash (Blockchain.initState 0) (genesisBlock 0) 7 3
    (.str "x") rfl rfl

/-- C10: `valid_chain` reads `chain[0]` unconditionally, so on the empty
chain it raises `IndexError` instead of returning a boolean; on any
non-empty chain that out-of-range failure cannot occur. -/
theorem C10_valid_chain_needs_nonempty (chain : List Block)
    (hne : chain ≠ []) :
    Blockchain.valid_chain [] = .error .indexError ∧
    Blockchain.valid_chain chain ≠ .error .indexError := by
  refine ⟨rfl, ?_⟩
  unfold Blockchain.valid_chain
  have h0 : chain.length ≠ 0 := by
    simpa using hne
  simp only [h0, if_false]
  split <;> simp

/-- C10 witness: the single-block chain is non-empty and does not produce
the out-of-range failure. -/
theorem C10_witness :
    ([genesisBlock 0] : List Block) ≠ [] ∧
    Blockchain.valid_chain [genesisBlock 0] ≠ .error .indexError :=
  ⟨by simp,
   (C10_valid_chain_needs_nonempty [genesisBlock 0] (by simp)).2⟩
